import Mathlib

/-!
Shallow embedding of the PawfectFinds rider/seller dashboard client logic.

The embedded code is the real-time order-lifecycle reconciliation logic of
the browser scripts:

* static/js/rider_available_orders.js — the rider "available orders" widget:
  loadAvailableOrders, addOrderCard, removeOrderCard, handleNewOrder,
  handleOrderTaken, handleOrderAccepted, acceptOrder, and the connect-event
  subscription emissions of initializeWebSocket.
* static/js/rider_dashboard.js — addOrderToAvailableOrders.
* the RiderWebSocket class — updateOrdersList.

The DOM is modelled by the data it carries: the container holds a list of
order-card ids (front of the list = first child of the container), and each
relevant element has a visibility flag.  Static existence of the container,
template and no-orders-message elements is an environment record, since the
scripts never create or destroy those elements.  Asynchronous fetches are
split into an invoke step (everything before the network call) and a resolve
step (the .then / .catch handlers applied to the response).
-/

namespace PawfectFinds

/-- Order record as consumed by the rider available-orders widget.  Only the
id participates in the set logic; the remaining fields are display data
copied into the card. -/
structure Order where
  id : Nat
  order_number : Option String := none
  created_at : Option String := none
  item_count : Option Nat := none
  total_amount : Option String := none
  shipping_address : Option String := none
  customer_name : Option String := none
deriving Repr, DecidableEq

/-- Static DOM environment of the rider available-orders page: which of the
required elements exist in the document (availableOrdersContainer,
orderCardTemplate, noOrdersMessage).  The scripts only read these elements,
so their existence is fixed for the lifetime of the page. -/
structure DomEnv where
  containerExists : Bool
  templateExists : Bool
  noOrdersMsgExists : Bool
deriving Repr, DecidableEq

/-- Mutable page state of the rider available-orders widget.
cards is the list of order ids of the cards inside availableOrdersContainer,
front of the list first; containerVisible and noOrdersVisible are the
display flags of the container and of the no-orders message; btnDisabled is
the set of order ids whose accept button is currently disabled; inFlight is
the multiset of order ids with a pending accept request. -/
@[ext]
structure PageState where
  cards : List Nat
  containerVisible : Bool
  noOrdersVisible : Bool
  btnDisabled : List Nat
  inFlight : List Nat
deriving Repr, DecidableEq

/-- addOrderCard of rider_available_orders.js: bail out when the container or
the template element is missing; no-op when a card with this order id already
exists; otherwise insert the new card as the container's first child. -/
def addOrderCard (env : DomEnv) (o : Order) (s : PageState) : PageState :=
  if env.containerExists ∧ env.templateExists then
    if o.id ∈ s.cards then s
    else { s with cards := o.id :: s.cards }
  else s

/-- removeOrderCard of rider_available_orders.js, modelled at the point where
the fade-out timeout has fired: the card is removed from the container and,
when the container is left empty, the container is hidden and the no-orders
message shown.  No-op when no card with this id exists. -/
def removeOrderCard (env : DomEnv) (orderId : Nat) (s : PageState) : PageState :=
  if orderId ∈ s.cards then
    if env.containerExists ∧ s.cards.erase orderId = [] then
      { s with
          cards := s.cards.erase orderId
          containerVisible := false
          noOrdersVisible := if env.noOrdersMsgExists then true else s.noOrdersVisible }
    else { s with cards := s.cards.erase orderId }
  else s

/-- handleNewOrder of rider_available_orders.js.  The payload argument models
the JavaScript expression (data.order || data) together with the truthiness
guard: none stands for a payload with no usable order object, and an order
with id 0 is dropped by the falsy check on order.id.  Otherwise the container
is shown, the no-orders message hidden, and the card added. -/
def handleNewOrder (env : DomEnv) (payload : Option Order) (s : PageState) : PageState :=
  match payload with
  | none => s
  | some o =>
    if o.id = 0 then s
    else
      addOrderCard env o
        { s with
            containerVisible := if env.containerExists then true else s.containerVisible
            noOrdersVisible := if env.noOrdersMsgExists then false else s.noOrdersVisible }

/-- handleOrderTaken of rider_available_orders.js: remove the card named by
the event. -/
def handleOrderTaken (env : DomEnv) (orderId : Nat) (s : PageState) : PageState :=
  removeOrderCard env orderId s

/-- Payload of the order_accepted push event. -/
structure AcceptedEvent where
  order_id : Nat
  rider_id : Nat
deriving Repr, DecidableEq

/-- handleOrderAccepted of rider_available_orders.js: remove the card only
when the accepting rider is someone else. -/
def handleOrderAccepted (env : DomEnv) (riderId : Nat) (data : AcceptedEvent)
    (s : PageState) : PageState :=
  if data.rider_id ≠ riderId then removeOrderCard env data.order_id s else s

/-- Parsed JSON body of the GET /rider/available-orders response. -/
structure FetchData where
  success : Bool
  orders : List Order
deriving Repr, DecidableEq

/-- Prologue of the non-empty branch of the loadAvailableOrders response
handler: when the container exists it is emptied (innerHTML cleared) and
shown, and the no-orders message is hidden when it exists. -/
def snapshotReset (env : DomEnv) (s : PageState) : PageState :=
  { s with
      cards := if env.containerExists then [] else s.cards
      containerVisible := if env.containerExists then true else s.containerVisible
      noOrdersVisible := if env.noOrdersMsgExists then false else s.noOrdersVisible }

/-- Empty branch of the loadAvailableOrders response handler: the container
is hidden and the no-orders message shown, for the elements that exist. -/
def showNoOrders (env : DomEnv) (s : PageState) : PageState :=
  { s with
      containerVisible := if env.containerExists then false else s.containerVisible
      noOrdersVisible := if env.noOrdersMsgExists then true else s.noOrdersVisible }

/-- Response handler of loadAvailableOrders in rider_available_orders.js
(the .then branch, lines that inspect data.success and data.orders): on a
successful non-empty snapshot the container is cleared, shown, the message
hidden, and every fetched order added through addOrderCard; otherwise the
container is hidden and the no-orders message shown. -/
def loadAvailableOrders (env : DomEnv) (data : FetchData) (s : PageState) : PageState :=
  if data.success ∧ data.orders ≠ [] then
    data.orders.foldl (fun t o => addOrderCard env o t) (snapshotReset env s)
  else showNoOrders env s

/-- Orders actually visible to the rider: the cards of the container when the
container is displayed, nothing when it is hidden. -/
def visibleCards (s : PageState) : List Nat :=
  if s.containerVisible then s.cards else []

/-- Kinds of toast accepted by showToast. -/
inductive ToastKind
  | success
  | danger
  | warning
  | info
deriving Repr, DecidableEq

/-- Arguments of a showToast call. -/
structure Toast where
  title : String
  message : String
  kind : ToastKind
deriving Repr, DecidableEq

/-- Parsed JSON body of the POST /rider/delivery/accept response. -/
structure AcceptResult where
  success : Bool
  message : Option String
deriving Repr, DecidableEq

/-- Outcome of the accept fetch: a parsed response, or a network error that
lands in the .catch handler. -/
inductive AcceptResponse
  | ok (r : AcceptResult)
  | netError
deriving Repr, DecidableEq

/-- Synchronous part of acceptOrder in rider_available_orders.js, everything
before the network call: bail out when the user cancels the confirm dialog;
otherwise disable the accept button of the order's card when that card
exists, and issue the POST.  The second component is the list of order ids
for which a network request is issued by this invocation. -/
def acceptOrderInvoke (confirmed : Bool) (orderId : Nat) (s : PageState) :
    PageState × List Nat :=
  if confirmed then
    let s1 : PageState :=
      if orderId ∈ s.cards then { s with btnDisabled := s.btnDisabled.insert orderId }
      else s
    ({ s1 with inFlight := orderId :: s1.inFlight }, [orderId])
  else (s, [])

/-- Response part of acceptOrder in rider_available_orders.js (the .then and
.catch handlers): on success show the success toast and remove the card; on
an application-level failure show the server message (or the generic one)
and re-enable the button; on a network error show the generic error toast
and re-enable the button.  The second component is the toast shown, the
third the list of order ids for which this handler issues a new network
request (always empty: the code never retries). -/
def acceptOrderResolve (env : DomEnv) (orderId : Nat) (resp : AcceptResponse)
    (s : PageState) : PageState × Option Toast × List Nat :=
  let s0 : PageState := { s with inFlight := s.inFlight.erase orderId }
  match resp with
  | .ok r =>
    if r.success then
      (removeOrderCard env orderId s0,
       some ⟨"Success!", "Delivery accepted successfully", .success⟩, [])
    else
      ({ s0 with btnDisabled := s0.btnDisabled.erase orderId },
       some ⟨"Failed", r.message.getD "Could not accept delivery", .danger⟩, [])
  | .netError =>
      ({ s0 with btnDisabled := s0.btnDisabled.erase orderId },
       some ⟨"Error", "Failed to accept delivery", .danger⟩, [])

/-- Browser click dispatch on an order card's accept button, whose onclick
handler is the arrow function installed by addOrderCard: a disabled button
fires no click event, so acceptOrder is only invoked when the button is
enabled. -/
def clickAcceptBtn (confirmed : Bool) (orderId : Nat) (s : PageState) :
    PageState × List Nat :=
  if orderId ∈ s.btnDisabled then (s, [])
  else acceptOrderInvoke confirmed orderId s

/-- Rooms joined by the rider available-orders socket. -/
inductive Room
  | rider (riderId : Nat)
  | availableOrders
deriving Repr, DecidableEq

/-- Messages emitted by the rider available-orders socket on its connect
handler. -/
inductive SocketEmit
  | join (room : Room)
  | riderOnline (riderId : Nat)
deriving Repr, DecidableEq

/-- Body of the connect handler registered by initializeWebSocket in
rider_available_orders.js: join the rider's personal room, join the shared
available_orders room, announce presence. -/
def connectEmits (riderId : Nat) : List SocketEmit :=
  [.join (.rider riderId), .join .availableOrders, .riderOnline riderId]

/-- Connection-lifecycle events delivered by the socket transport. -/
inductive ConnEvent
  | connected
  | disconnected
  | reconnected
deriving Repr, DecidableEq

/-- Emissions produced by the registered lifecycle handlers for one event:
the connect handler emits the subscription triple, the disconnect and
reconnect handlers emit nothing (the reconnect handler only reloads the
snapshot). -/
def handleConnEvent (riderId : Nat) : ConnEvent → List SocketEmit
  | .connected => connectEmits riderId
  | .disconnected => []
  | .reconnected => []

/-- Emission batches along a trace of connection-lifecycle events. -/
def traceEmits (riderId : Nat) (events : List ConnEvent) : List (List SocketEmit) :=
  events.map (handleConnEvent riderId)

/-- Period of the snapshot-refresh timer installed at page load:
setInterval(loadAvailableOrders, 60000). -/
def pollIntervalMs : Nat := 60000

/-- Effect of a run of consecutive firings of the snapshot-refresh timer with
no push events in between: each firing applies the response handler of
loadAvailableOrders to the snapshot it fetched. -/
def runPolls (env : DomEnv) (datas : List FetchData) (s : PageState) : PageState :=
  datas.foldl (fun t d => loadAvailableOrders env d t) s

/-- Order payload consumed by addOrderToAvailableOrders in
rider_dashboard.js; the set logic only uses order_id. -/
structure DashOrder where
  order_id : Nat
  order_number : Option String := none
  created_at : Option String := none
  item_count : Option Nat := none
  delivery_address : Option String := none
deriving Repr, DecidableEq

/-- Mutable state of the rider dashboard's available-orders widget: the
cards keyed by data-order-id inside availableOrdersContainer and the
visibility of the no-orders message. -/
structure DashState where
  cards : List Nat
  noOrdersVisible : Bool
deriving Repr, DecidableEq

/-- Step of addOrderToAvailableOrders that hides the no-orders message when
that element exists; in the source this runs before the duplicate and
template checks. -/
def dashHideMsg (env : DomEnv) (s : DashState) : DashState :=
  if env.noOrdersMsgExists then { s with noOrdersVisible := false } else s

/-- Remainder of addOrderToAvailableOrders after the message is hidden: when
a card with this order id already exists it is updated in place (the id set
is unchanged); otherwise, when the template exists, the new card is inserted
as the container's first child, and when the template is missing the
operation logs and returns. -/
def dashInsert (env : DomEnv) (o : DashOrder) (s : DashState) : DashState :=
  if o.order_id ∈ s.cards then s
  else if env.templateExists then { s with cards := o.order_id :: s.cards }
  else s

/-- addOrderToAvailableOrders of rider_dashboard.js: bail out when the
container is missing; hide the no-orders message; then apply the duplicate
and template checks and the insertion. -/
def addOrderToAvailableOrders (env : DomEnv) (o : DashOrder) (s : DashState) :
    DashState :=
  if env.containerExists then dashInsert env o (dashHideMsg env s) else s

/-- Contents of the available-orders-list element maintained by
updateOrdersList of the RiderWebSocket class: either the order cards, or the
no-orders alert markup. -/
structure WsListState where
  cards : List Nat
  noOrdersAlert : Bool
deriving Repr, DecidableEq

/-- updateOrdersList of the RiderWebSocket class: bail out when the list
container is missing; on an empty snapshot replace the contents with the
no-orders alert; otherwise clear the container and append an element per
order in snapshot order. -/
def updateOrdersList (containerExists : Bool) (orders : List Order)
    (s : WsListState) : WsListState :=
  if containerExists then
    if orders = [] then { cards := [], noOrdersAlert := true }
    else { cards := orders.map Order.id, noOrdersAlert := false }
  else s

/-- Display invariant of the rider available-orders widget: the no-orders
message is shown exactly when no order card is visible. -/
def displayInv (s : PageState) : Prop :=
  s.noOrdersVisible = true ↔ visibleCards s = []

instance (s : PageState) : Decidable (displayInv s) := by
  unfold displayInv; infer_instance

/-- Pure projection of the card-id list computed by a run of addOrderCard
calls over a snapshot, used to reason about the fold inside
loadAvailableOrders: each id is inserted at the front unless already
present. -/
def insertIds (c : List Nat) (os : List Order) : List Nat :=
  os.foldl (fun acc o => if o.id ∈ acc then acc else o.id :: acc) c

theorem addOrderCard_of_missing (env : DomEnv) (o : Order) (s : PageState)
    (h : ¬(env.containerExists ∧ env.templateExists)) :
    addOrderCard env o s = s := by
  unfold addOrderCard
  simp [h]

theorem addOrderCard_cards (env : DomEnv) (o : Order) (s : PageState)
    (hc : env.containerExists = true) (ht : env.templateExists = true) :
    (addOrderCard env o s).cards =
      if o.id ∈ s.cards then s.cards else o.id :: s.cards := by
  unfold addOrderCard
  simp only [hc, ht, and_self, if_true]
  split <;> rfl

theorem addOrderCard_containerVisible (env : DomEnv) (o : Order) (s : PageState) :
    (addOrderCard env o s).containerVisible = s.containerVisible := by
  unfold addOrderCard
  split
  · split <;> rfl
  · rfl

theorem addOrderCard_noOrdersVisible (env : DomEnv) (o : Order) (s : PageState) :
    (addOrderCard env o s).noOrdersVisible = s.noOrdersVisible := by
  unfold addOrderCard
  split
  · split <;> rfl
  · rfl

theorem addOrderCard_btnDisabled (env : DomEnv) (o : Order) (s : PageState) :
    (addOrderCard env o s).btnDisabled = s.btnDisabled := by
  unfold addOrderCard
  split
  · split <;> rfl
  · rfl

theorem addOrderCard_inFlight (env : DomEnv) (o : Order) (s : PageState) :
    (addOrderCard env o s).inFlight = s.inFlight := by
  unfold addOrderCard
  split
  · split <;> rfl
  · rfl

theorem addOrderCard_mem_noop (env : DomEnv) (o : Order) (s : PageState)
    (h : o.id ∈ s.cards) : addOrderCard env o s = s := by
  unfold addOrderCard
  by_cases hct : env.containerExists = true ∧ env.templateExists = true
  · rw [if_pos hct, if_pos h]
  · rw [if_neg hct]

theorem addOrderCard_mem_cards (env : DomEnv) (o : Order) (s : PageState)
    (hc : env.containerExists = true) (ht : env.templateExists = true) :
    o.id ∈ (addOrderCard env o s).cards := by
  rw [addOrderCard_cards env o s hc ht]
  split
  · assumption
  · exact List.mem_cons_self _ _

theorem foldAdd_cards (env : DomEnv) (os : List Order) (s : PageState)
    (hc : env.containerExists = true) (ht : env.templateExists = true) :
    (os.foldl (fun t o => addOrderCard env o t) s).cards = insertIds s.cards os := by
  induction os generalizing s with
  | nil => rfl
  | cons o os ih =>
    simp only [List.foldl_cons, insertIds, ih]
    rw [addOrderCard_cards env o s hc ht]

theorem foldAdd_containerVisible (env : DomEnv) (os : List Order) (s : PageState) :
    (os.foldl (fun t o => addOrderCard env o t) s).containerVisible =
      s.containerVisible := by
  induction os generalizing s with
  | nil => rfl
  | cons o os ih => simp only [List.foldl_cons, ih, addOrderCard_containerVisible]

theorem foldAdd_noOrdersVisible (env : DomEnv) (os : List Order) (s : PageState) :
    (os.foldl (fun t o => addOrderCard env o t) s).noOrdersVisible =
      s.noOrdersVisible := by
  induction os generalizing s with
  | nil => rfl
  | cons o os ih => simp only [List.foldl_cons, ih, addOrderCard_noOrdersVisible]

theorem foldAdd_btnDisabled (env : DomEnv) (os : List Order) (s : PageState) :
    (os.foldl (fun t o => addOrderCard env o t) s).btnDisabled = s.btnDisabled := by
  induction os generalizing s with
  | nil => rfl
  | cons o os ih => simp only [List.foldl_cons, ih, addOrderCard_btnDisabled]

theorem foldAdd_inFlight (env : DomEnv) (os : List Order) (s : PageState) :
    (os.foldl (fun t o => addOrderCard env o t) s).inFlight = s.inFlight := by
  induction os generalizing s with
  | nil => rfl
  | cons o os ih => simp only [List.foldl_cons, ih, addOrderCard_inFlight]

theorem foldAdd_of_missing (env : DomEnv) (os : List Order) (s : PageState)
    (h : ¬(env.containerExists ∧ env.templateExists)) :
    os.foldl (fun t o => addOrderCard env o t) s = s := by
  induction os generalizing s with
  | nil => rfl
  | cons o os ih => simp only [List.foldl_cons, addOrderCard_of_missing env o s h, ih]

theorem mem_insertIds (x : Nat) (c : List Nat) (os : List Order) :
    x ∈ insertIds c os ↔ x ∈ c ∨ x ∈ os.map Order.id := by
  induction os generalizing c with
  | nil => simp [insertIds]
  | cons o os ih =>
    simp only [insertIds, List.foldl_cons] at ih ⊢
    rw [ih]
    by_cases h : o.id ∈ c
    · simp only [if_pos h, List.map_cons, List.mem_cons]
      constructor
      · rintro (hx | hx)
        · exact Or.inl hx
        · exact Or.inr (Or.inr hx)
      · rintro (hx | hx | hx)
        · exact Or.inl hx
        · exact Or.inl (hx ▸ h)
        · exact Or.inr hx
    · simp only [if_neg h, List.map_cons, List.mem_cons]
      tauto

theorem insertIds_ne_nil (c : List Nat) (os : List Order) (h : os ≠ []) :
    insertIds c os ≠ [] := by
  obtain ⟨o, os', rfl⟩ : ∃ o os', os = o :: os' := by
    cases os with
    | nil => exact absurd rfl h
    | cons o os' => exact ⟨o, os', rfl⟩
  intro hnil
  have : o.id ∈ insertIds c (o :: os') :=
    (mem_insertIds o.id c (o :: os')).2 (Or.inr (by simp))
  rw [hnil] at this
  exact List.not_mem_nil _ this

theorem removeOrderCard_cards (env : DomEnv) (orderId : Nat) (s : PageState) :
    (removeOrderCard env orderId s).cards = s.cards.erase orderId := by
  unfold removeOrderCard
  by_cases h1 : orderId ∈ s.cards
  · rw [if_pos h1]
    by_cases h2 : env.containerExists = true ∧ s.cards.erase orderId = []
    · rw [if_pos h2]
    · rw [if_neg h2]
  · rw [if_neg h1, List.erase_of_not_mem h1]

theorem loadAvailableOrders_visibleCards (env : DomEnv) (data : FetchData)
    (s : PageState) (hc : env.containerExists = true) (ht : env.templateExists = true) :
    visibleCards (loadAvailableOrders env data s) =
      if data.success = true ∧ data.orders ≠ [] then insertIds [] data.orders
      else [] := by
  unfold loadAvailableOrders
  by_cases h : data.success = true ∧ data.orders ≠ []
  · rw [if_pos h, if_pos h]
    unfold visibleCards
    rw [foldAdd_containerVisible, foldAdd_cards env data.orders _ hc ht]
    simp [snapshotReset, hc]
  · rw [if_neg h, if_neg h]
    unfold visibleCards
    simp [showNoOrders, hc]

theorem removeOrderCard_not_mem (env : DomEnv) (orderId : Nat) (s : PageState)
    (hnd : s.cards.Nodup) :
    orderId ∉ (removeOrderCard env orderId s).cards := by
  rw [removeOrderCard_cards]
  exact hnd.not_mem_erase

theorem removeOrderCard_btnDisabled (env : DomEnv) (orderId : Nat) (s : PageState) :
    (removeOrderCard env orderId s).btnDisabled = s.btnDisabled := by
  unfold removeOrderCard
  by_cases h1 : orderId ∈ s.cards
  · rw [if_pos h1]
    by_cases h2 : env.containerExists = true ∧ s.cards.erase orderId = []
    · rw [if_pos h2]
    · rw [if_neg h2]
  · rw [if_neg h1]

theorem removeOrderCard_inFlight (env : DomEnv) (orderId : Nat) (s : PageState) :
    (removeOrderCard env orderId s).inFlight = s.inFlight := by
  unfold removeOrderCard
  by_cases h1 : orderId ∈ s.cards
  · rw [if_pos h1]
    by_cases h2 : env.containerExists = true ∧ s.cards.erase orderId = []
    · rw [if_pos h2]
    · rw [if_neg h2]
  · rw [if_neg h1]

theorem snapshotReset_foldAdd (env : DomEnv) (os : List Order) (s : PageState) :
    snapshotReset env
        (os.foldl (fun t o => addOrderCard env o t) (snapshotReset env s)) =
      snapshotReset env s := by
  refine PageState.ext ?_ ?_ ?_ ?_ ?_
  · show (if env.containerExists then []
        else (os.foldl (fun t o => addOrderCard env o t) (snapshotReset env s)).cards) =
      (if env.containerExists then [] else s.cards)
    by_cases hc : env.containerExists = true
    · simp [hc]
    · have hb : env.containerExists = false := by simpa using hc
      have hmiss : ¬(env.containerExists = true ∧ env.templateExists = true) := by
        simp [hb]
      rw [foldAdd_of_missing env os _ hmiss]
      simp [snapshotReset, hb]
  · show (if env.containerExists then true
        else (os.foldl (fun t o => addOrderCard env o t)
          (snapshotReset env s)).containerVisible) =
      (if env.containerExists then true else s.containerVisible)
    rw [foldAdd_containerVisible]
    by_cases hc : env.containerExists = true
    · simp [hc]
    · have hb : env.containerExists = false := by simpa using hc
      simp [snapshotReset, hb]
  · show (if env.noOrdersMsgExists then false
        else (os.foldl (fun t o => addOrderCard env o t)
          (snapshotReset env s)).noOrdersVisible) =
      (if env.noOrdersMsgExists then false else s.noOrdersVisible)
    rw [foldAdd_noOrdersVisible]
    by_cases hm : env.noOrdersMsgExists = true
    · simp [hm]
    · have hb : env.noOrdersMsgExists = false := by simpa using hm
      simp [snapshotReset, hb]
  · show (os.foldl (fun t o => addOrderCard env o t)
        (snapshotReset env s)).btnDisabled = s.btnDisabled
    rw [foldAdd_btnDisabled]
    rfl
  · show (os.foldl (fun t o => addOrderCard env o t)
        (snapshotReset env s)).inFlight = s.inFlight
    rw [foldAdd_inFlight]
    rfl

theorem showNoOrders_idem (env : DomEnv) (s : PageState) :
    showNoOrders env (showNoOrders env s) = showNoOrders env s := by
  unfold showNoOrders
  refine PageState.ext rfl ?_ ?_ rfl rfl
  · by_cases hc : env.containerExists = true <;> simp [hc]
  · by_cases hm : env.noOrdersMsgExists = true <;> simp [hm]

theorem loadAvailableOrders_idem (env : DomEnv) (data : FetchData) (s : PageState) :
    loadAvailableOrders env data (loadAvailableOrders env data s) =
      loadAvailableOrders env data s := by
  unfold loadAvailableOrders
  by_cases h : data.success = true ∧ data.orders ≠ []
  · simp only [if_pos h]
    rw [snapshotReset_foldAdd]
  · simp only [if_neg h]
    exact showNoOrders_idem env s

theorem loadAvailableOrders_noOrdersVisible (env : DomEnv) (data : FetchData)
    (s : PageState) (hm : env.noOrdersMsgExists = true) :
    (loadAvailableOrders env data s).noOrdersVisible =
      if data.success = true ∧ data.orders ≠ [] then false else true := by
  unfold loadAvailableOrders
  by_cases h : data.success = true ∧ data.orders ≠ []
  · rw [if_pos h, if_pos h, foldAdd_noOrdersVisible]
    simp [snapshotReset, hm]
  · rw [if_neg h, if_neg h]
    simp [showNoOrders, hm]

theorem dashHideMsg_cards (env : DomEnv) (s : DashState) :
    (dashHideMsg env s).cards = s.cards := by
  unfold dashHideMsg
  split <;> rfl

theorem dashInsert_cards_of_no_template (env : DomEnv) (o : DashOrder)
    (s : DashState) (h : env.templateExists = false) :
    (dashInsert env o s).cards = s.cards := by
  unfold dashInsert
  simp [h]

/-- C3: applyAdd is idempotent and deduplicating.  addOrderCard applied a
second time with the same order is a no-op, an addOrderCard whose id is
already present (whether the first copy came from a push event or from the
snapshot fetch, both of which insert through addOrderCard) leaves the state
unchanged, and addOrderToAvailableOrders with an id already present leaves
the card-id set unchanged. -/
theorem applyAdd_idempotent_dedup (env : DomEnv) (o : Order) (s : PageState)
    (od : DashOrder) (d : DashState) :
    addOrderCard env o (addOrderCard env o s) = addOrderCard env o s ∧
    (o.id ∈ s.cards → addOrderCard env o s = s) ∧
    (od.order_id ∈ d.cards →
      (addOrderToAvailableOrders env od d).cards = d.cards) := by
  refine ⟨?_, ?_, ?_⟩
  · by_cases hct : env.containerExists = true ∧ env.templateExists = true
    · exact addOrderCard_mem_noop env o _ (addOrderCard_mem_cards env o s hct.1 hct.2)
    · rw [addOrderCard_of_missing env o _ hct, addOrderCard_of_missing env o s hct]
  · exact addOrderCard_mem_noop env o s
  · intro h
    unfold addOrderToAvailableOrders
    by_cases hcont : env.containerExists = true
    · rw [if_pos hcont]
      have hmem : od.order_id ∈ (dashHideMsg env d).cards := by
        rw [dashHideMsg_cards]; exact h
      unfold dashInsert
      rw [if_pos hmem, dashHideMsg_cards]
    · rw [if_neg hcont]

/-- C3 witness: concrete instance of applyAdd idempotence and dedup with
order id 3 already present. -/
theorem applyAdd_idempotent_dedup_witness :
    addOrderCard ⟨true, true, true⟩ ⟨3, none, none, none, none, none, none⟩
        (addOrderCard ⟨true, true, true⟩ ⟨3, none, none, none, none, none, none⟩
          ⟨[3], true, false, [], []⟩) =
      addOrderCard ⟨true, true, true⟩ ⟨3, none, none, none, none, none, none⟩
        ⟨[3], true, false, [], []⟩ ∧
    addOrderCard ⟨true, true, true⟩ ⟨3, none, none, none, none, none, none⟩
        ⟨[3], true, false, [], []⟩ = ⟨[3], true, false, [], []⟩ ∧
    (addOrderToAvailableOrders ⟨true, true, true⟩ ⟨3, none, none, none, none⟩
        ⟨[3], true⟩).cards = [3] :=
  ⟨(applyAdd_idempotent_dedup ⟨true, true, true⟩
      ⟨3, none, none, none, none, none, none⟩ ⟨[3], true, false, [], []⟩
      ⟨3, none, none, none, none⟩ ⟨[3], true⟩).1,
   (applyAdd_idempotent_dedup ⟨true, true, true⟩
      ⟨3, none, none, none, none, none, none⟩ ⟨[3], true, false, [], []⟩
      ⟨3, none, none, none, none⟩ ⟨[3], true⟩).2.1 (by decide),
   (applyAdd_idempotent_dedup ⟨true, true, true⟩
      ⟨3, none, none, none, none, none, none⟩ ⟨[3], true, false, [], []⟩
      ⟨3, none, none, none, none⟩ ⟨[3], true⟩).2.2 (by decide)⟩

/-- C9: an order_accepted event whose rider_id equals this page's own rider
id leaves the state unchanged; when the rider_id differs, the order's card
is removed. -/
theorem own_acceptance_no_removal (env : DomEnv) (riderId : Nat)
    (data : AcceptedEvent) (s : PageState) (hnd : s.cards.Nodup) :
    (data.rider_id = riderId → handleOrderAccepted env riderId data s = s) ∧
    (data.rider_id ≠ riderId →
      data.order_id ∉ (handleOrderAccepted env riderId data s).cards) := by
  constructor
  · intro h
    unfold handleOrderAccepted
    simp [h]
  · intro h
    unfold handleOrderAccepted
    rw [if_pos h]
    exact removeOrderCard_not_mem env data.order_id s hnd

/-- C9 witness: rider 4 sees its own acceptance of order 9 leave the list
unchanged, and rider 5's acceptance of order 9 remove the card. -/
theorem own_acceptance_no_removal_witness :
    handleOrderAccepted ⟨true, true, true⟩ 4 ⟨9, 4⟩ ⟨[9], true, false, [], []⟩ =
      ⟨[9], true, false, [], []⟩ ∧
    9 ∉ (handleOrderAccepted ⟨true, true, true⟩ 4 ⟨9, 5⟩
        ⟨[9], true, false, [], []⟩).cards :=
  ⟨(own_acceptance_no_removal ⟨true, true, true⟩ 4 ⟨9, 4⟩
      ⟨[9], true, false, [], []⟩ (by decide)).1 rfl,
   (own_acceptance_no_removal ⟨true, true, true⟩ 4 ⟨9, 5⟩
      ⟨[9], true, false, [], []⟩ (by decide)).2 (by decide)⟩

/-- C1 counterexample: with all DOM elements present, add order 2, remove it
(order taken), then receive a late add for order 2 again: the card is
re-inserted, so the visible set after the late add differs from the set
after the remove.  The code keeps no recently-removed marker. -/
theorem resurrection_not_suppressed_counterexample :
    2 ∉ (handleOrderTaken ⟨true, true, true⟩ 2
          (handleNewOrder ⟨true, true, true⟩
            (some ⟨2, none, none, none, none, none, none⟩)
            ⟨[], false, true, [], []⟩)).cards ∧
    2 ∈ (handleNewOrder ⟨true, true, true⟩
          (some ⟨2, none, none, none, none, none, none⟩)
          (handleOrderTaken ⟨true, true, true⟩ 2
            (handleNewOrder ⟨true, true, true⟩
              (some ⟨2, none, none, none, none, none, none⟩)
              ⟨[], false, true, [], []⟩))).cards ∧
    visibleCards (handleNewOrder ⟨true, true, true⟩
          (some ⟨2, none, none, none, none, none, none⟩)
          (handleOrderTaken ⟨true, true, true⟩ 2
            (handleNewOrder ⟨true, true, true⟩
              (some ⟨2, none, none, none, none, none, none⟩)
              ⟨[], false, true, [], []⟩))) ≠
      visibleCards (handleOrderTaken ⟨true, true, true⟩ 2
          (handleNewOrder ⟨true, true, true⟩
            (some ⟨2, none, none, none, none, none, none⟩)
            ⟨[], false, true, [], []⟩)) := by
  decide

/-- C1 corrected: once a removal has completed, a subsequent applyAdd for the
same id re-inserts the card at the front — there is no retention-window
suppression; an add is a no-op only while a card with that id is still
present. -/
theorem add_after_remove_reinserts (env : DomEnv) (o : Order) (s : PageState)
    (hc : env.containerExists = true) (ht : env.templateExists = true)
    (hnd : s.cards.Nodup) :
    (addOrderCard env o (removeOrderCard env o.id s)).cards =
      o.id :: (removeOrderCard env o.id s).cards := by
  have hnm : o.id ∉ (removeOrderCard env o.id s).cards :=
    removeOrderCard_not_mem env o.id s hnd
  rw [addOrderCard_cards env o _ hc ht, if_neg hnm]

/-- C1 corrected witness: removing order 2 and adding it again re-inserts
the card. -/
theorem add_after_remove_reinserts_witness :
    (addOrderCard ⟨true, true, true⟩ ⟨2, none, none, none, none, none, none⟩
        (removeOrderCard ⟨true, true, true⟩ 2 ⟨[2], true, false, [], []⟩)).cards =
      2 :: (removeOrderCard ⟨true, true, true⟩ 2 ⟨[2], true, false, [], []⟩).cards :=
  add_after_remove_reinserts ⟨true, true, true⟩
    ⟨2, none, none, none, none, none, none⟩ ⟨[2], true, false, [], []⟩
    rfl rfl (by decide)

/-- C2 counterexample: with order 5's accept request already in flight, a
second direct invocation of acceptOrder for order 5 still issues a network
request — it is not rejected locally. -/
theorem duplicate_invoke_issues_second_request :
    5 ∈ (acceptOrderInvoke true 5 ⟨[5], true, false, [], []⟩).1.inFlight ∧
    (acceptOrderInvoke true 5
        (acceptOrderInvoke true 5 ⟨[5], true, false, [], []⟩).1).2 = [5] := by
  decide

/-- C2 corrected: the in-flight guard is the disabled accept button, not a
local check in the dispatcher.  acceptOrder disables the button of the
order's card before issuing the request, and a click on a disabled button
does not invoke the handler, so a second click-initiated submission through
that button issues no network request while the first is pending. -/
theorem disabled_button_blocks_duplicate_click (confirmed : Bool)
    (orderId : Nat) (s : PageState) (hmem : orderId ∈ s.cards) :
    orderId ∈ (acceptOrderInvoke true orderId s).1.btnDisabled ∧
    clickAcceptBtn confirmed orderId (acceptOrderInvoke true orderId s).1 =
      ((acceptOrderInvoke true orderId s).1, []) := by
  have hbtn : orderId ∈ (acceptOrderInvoke true orderId s).1.btnDisabled := by
    simp only [acceptOrderInvoke, if_pos rfl, if_pos hmem]
    exact List.mem_insert_self orderId s.btnDisabled
  refine ⟨hbtn, ?_⟩
  unfold clickAcceptBtn
  rw [if_pos hbtn]

/-- C2 corrected witness: clicking order 7's accept button again while its
request is pending issues no request. -/
theorem disabled_button_blocks_duplicate_click_witness :
    7 ∈ (acceptOrderInvoke true 7 ⟨[7], true, false, [], []⟩).1.btnDisabled ∧
    clickAcceptBtn true 7 (acceptOrderInvoke true 7 ⟨[7], true, false, [], []⟩).1 =
      ((acceptOrderInvoke true 7 ⟨[7], true, false, [], []⟩).1, []) :=
  disabled_button_blocks_duplicate_click true 7 ⟨[7], true, false, [], []⟩ (by decide)

/-- C8 counterexample: with the container present but the order card
template missing, addOrderToAvailableOrders returns without inserting but
has already hidden the no-orders message, so it does mutate state. -/
theorem missing_template_mutates_message :
    addOrderToAvailableOrders ⟨true, false, true⟩ ⟨7, none, none, none, none⟩
        ⟨[], true⟩ ≠ ⟨[], true⟩ := by
  decide

/-- C8 corrected: a missing DOM target is non-fatal and never inserts a
card: addOrderCard is a complete no-op when the container or template is
missing, updateOrdersList is a complete no-op when its list container is
missing, and addOrderToAvailableOrders is a complete no-op when the
container is missing and leaves the card set unchanged when only the
template is missing (though it has already hidden the no-orders message in
that case). -/
theorem missing_dom_nonfatal (env : DomEnv) (o : Order) (od : DashOrder)
    (s : PageState) (d : DashState) (w : WsListState) (orders : List Order) :
    addOrderCard { env with templateExists := false } o s = s ∧
    addOrderCard { env with containerExists := false } o s = s ∧
    addOrderToAvailableOrders { env with containerExists := false } od d = d ∧
    (addOrderToAvailableOrders
        { env with containerExists := true, templateExists := false } od d).cards =
      d.cards ∧
    updateOrdersList false orders w = w := by
  refine ⟨?_, ?_, ?_, ?_, ?_⟩
  · exact addOrderCard_of_missing _ o s (by simp)
  · exact addOrderCard_of_missing _ o s (by simp)
  · unfold addOrderToAvailableOrders
    simp
  · unfold addOrderToAvailableOrders
    rw [if_pos rfl, dashInsert_cards_of_no_template _ od _ rfl, dashHideMsg_cards]
  · unfold updateOrdersList
    simp

/-- C5: when the accept request fails (network error or success:false), the
order set and container visibility are unchanged, the accept button is
re-enabled, the error toast carries the server message when present and the
generic text otherwise, no retry request is issued, and the pre-response
part of acceptOrder never mutates the card set. -/
theorem accept_failure_rollback (env : DomEnv) (orderId : Nat)
    (resp : AcceptResponse) (s : PageState) (hnd : s.btnDisabled.Nodup)
    (hfail : match resp with
             | AcceptResponse.ok r => r.success = false
             | AcceptResponse.netError => True) :
    (acceptOrderResolve env orderId resp s).1.cards = s.cards ∧
    (acceptOrderResolve env orderId resp s).1.containerVisible =
      s.containerVisible ∧
    orderId ∉ (acceptOrderResolve env orderId resp s).1.btnDisabled ∧
    (match resp with
     | AcceptResponse.ok r =>
         (acceptOrderResolve env orderId resp s).2.1 =
           some ⟨"Failed", r.message.getD "Could not accept delivery",
                 ToastKind.danger⟩
     | AcceptResponse.netError =>
         (acceptOrderResolve env orderId resp s).2.1 =
           some ⟨"Error", "Failed to accept delivery", ToastKind.danger⟩) ∧
    (acceptOrderResolve env orderId resp s).2.2 = [] ∧
    (acceptOrderInvoke true orderId s).1.cards = s.cards := by
  have hinvoke : (acceptOrderInvoke true orderId s).1.cards = s.cards := by
    unfold acceptOrderInvoke
    by_cases hmem : orderId ∈ s.cards
    · simp [hmem]
    · simp [hmem]
  cases resp with
  | ok r =>
    have hs : r.success = false := hfail
    unfold acceptOrderResolve
    simp only [hs, Bool.false_eq_true, if_false]
    exact ⟨by trivial, by trivial, hnd.not_mem_erase, by trivial, by trivial, hinvoke⟩
  | netError =>
    unfold acceptOrderResolve
    exact ⟨by trivial, by trivial, hnd.not_mem_erase, by trivial, by trivial, hinvoke⟩

/-- C5 witness: order 5's accept is rejected with message Already taken; the
card stays, the button re-enables, the toast shows the server message, and
no retry request is issued. -/
theorem accept_failure_rollback_witness :
    (acceptOrderResolve ⟨true, true, true⟩ 5
        (AcceptResponse.ok ⟨false, some "Already taken"⟩)
        ⟨[5], true, false, [5], [5]⟩).1.cards = [5] ∧
    5 ∉ (acceptOrderResolve ⟨true, true, true⟩ 5
        (AcceptResponse.ok ⟨false, some "Already taken"⟩)
        ⟨[5], true, false, [5], [5]⟩).1.btnDisabled ∧
    (acceptOrderResolve ⟨true, true, true⟩ 5
        (AcceptResponse.ok ⟨false, some "Already taken"⟩)
        ⟨[5], true, false, [5], [5]⟩).2.1 =
      some ⟨"Failed", "Already taken", ToastKind.danger⟩ ∧
    (acceptOrderResolve ⟨true, true, true⟩ 5
        (AcceptResponse.ok ⟨false, some "Already taken"⟩)
        ⟨[5], true, false, [5], [5]⟩).2.2 = [] :=
  ⟨(accept_failure_rollback ⟨true, true, true⟩ 5
      (AcceptResponse.ok ⟨false, some "Already taken"⟩)
      ⟨[5], true, false, [5], [5]⟩ (by decide) rfl).1,
   (accept_failure_rollback ⟨true, true, true⟩ 5
      (AcceptResponse.ok ⟨false, some "Already taken"⟩)
      ⟨[5], true, false, [5], [5]⟩ (by decide) rfl).2.2.1,
   (accept_failure_rollback ⟨true, true, true⟩ 5
      (AcceptResponse.ok ⟨false, some "Already taken"⟩)
      ⟨[5], true, false, [5], [5]⟩ (by decide) rfl).2.2.2.1,
   (accept_failure_rollback ⟨true, true, true⟩ 5
      (AcceptResponse.ok ⟨false, some "Already taken"⟩)
      ⟨[5], true, false, [5], [5]⟩ (by decide) rfl).2.2.2.2.1⟩

/-- C6: every occurrence of the connect event in a connection trace — the
first connect and every reconnect — produces the identical emission batch,
namely the personal room join, the shared available_orders room join, and
the rider_online presence announcement. -/
theorem connect_resubscription_identical (riderId : Nat)
    (events : List ConnEvent) (i j : Nat)
    (hi : events.get? i = some ConnEvent.connected)
    (hj : events.get? j = some ConnEvent.connected) :
    (traceEmits riderId events).get? i = (traceEmits riderId events).get? j ∧
    (traceEmits riderId events).get? i = some (connectEmits riderId) ∧
    SocketEmit.join (Room.rider riderId) ∈ connectEmits riderId ∧
    SocketEmit.join Room.availableOrders ∈ connectEmits riderId ∧
    SocketEmit.riderOnline riderId ∈ connectEmits riderId := by
  have h1 : (traceEmits riderId events).get? i = some (connectEmits riderId) := by
    unfold traceEmits
    rw [List.get?_map, hi]
    rfl
  have h2 : (traceEmits riderId events).get? j = some (connectEmits riderId) := by
    unfold traceEmits
    rw [List.get?_map, hj]
    rfl
  exact ⟨h1.trans h2.symm, h1, by simp [connectEmits], by simp [connectEmits],
    by simp [connectEmits]⟩

/-- C6 witness: in the trace connect, disconnect, connect of rider 3, the
first and the second connect emit the identical subscription batch. -/
theorem connect_resubscription_identical_witness :
    (traceEmits 3 [ConnEvent.connected, ConnEvent.disconnected,
        ConnEvent.connected]).get? 0 =
      (traceEmits 3 [ConnEvent.connected, ConnEvent.disconnected,
        ConnEvent.connected]).get? 2 ∧
    (traceEmits 3 [ConnEvent.connected, ConnEvent.disconnected,
        ConnEvent.connected]).get? 0 = some (connectEmits 3) :=
  ⟨(connect_resubscription_identical 3
      [ConnEvent.connected, ConnEvent.disconnected, ConnEvent.connected]
      0 2 rfl rfl).1,
   (connect_resubscription_identical 3
      [ConnEvent.connected, ConnEvent.disconnected, ConnEvent.connected]
      0 2 rfl rfl).2.1⟩

/-- C7: the snapshot-refresh timer period is 60 seconds, inside the 30–60
second range, and after any run of timer firings with zero push events the
visible order set equals the set produced by the last fetched snapshot
alone — the pull fallback updates the view independently of push. -/
theorem pull_fallback_updates_visible_set (env : DomEnv)
    (datas : List FetchData) (d : FetchData) (s t : PageState)
    (hc : env.containerExists = true) (ht : env.templateExists = true) :
    30 ≤ pollIntervalMs / 1000 ∧ pollIntervalMs / 1000 ≤ 60 ∧
    visibleCards (runPolls env (datas ++ [d]) s) =
      visibleCards (loadAvailableOrders env d t) := by
  refine ⟨by decide, by decide, ?_⟩
  unfold runPolls
  rw [List.foldl_append]
  simp only [List.foldl_cons, List.foldl_nil]
  rw [loadAvailableOrders_visibleCards env d _ hc ht,
    loadAvailableOrders_visibleCards env d t hc ht]

/-- C7 witness: after a failed poll followed by a successful poll returning
order 1, the visible set is that of the last snapshot alone. -/
theorem pull_fallback_updates_visible_set_witness :
    30 ≤ pollIntervalMs / 1000 ∧ pollIntervalMs / 1000 ≤ 60 ∧
    visibleCards (runPolls ⟨true, true, true⟩
        ([⟨false, []⟩] ++ [⟨true, [⟨1, none, none, none, none, none, none⟩]⟩])
        ⟨[9], true, false, [], []⟩) =
      visibleCards (loadAvailableOrders ⟨true, true, true⟩
        ⟨true, [⟨1, none, none, none, none, none, none⟩]⟩
        ⟨[], false, true, [], []⟩) :=
  pull_fallback_updates_visible_set ⟨true, true, true⟩ [⟨false, []⟩]
    ⟨true, [⟨1, none, none, none, none, none, none⟩]⟩
    ⟨[9], true, false, [], []⟩ ⟨[], false, true, [], []⟩ rfl rfl

/-- C4: the visible order set produced by the loadAvailableOrders response
handler is exactly the ids of the fetched snapshot (for a successful
response; empty otherwise), independent of the previous state, and applying
the handler twice with the same response equals applying it once. -/
theorem replaceSnapshot_idempotent_determined (env : DomEnv)
    (data : FetchData) (s : PageState) (hc : env.containerExists = true)
    (ht : env.templateExists = true) :
    (∀ x : Nat, x ∈ visibleCards (loadAvailableOrders env data s) ↔
        data.success = true ∧ x ∈ data.orders.map Order.id) ∧
    loadAvailableOrders env data (loadAvailableOrders env data s) =
      loadAvailableOrders env data s := by
  constructor
  · intro x
    rw [loadAvailableOrders_visibleCards env data s hc ht]
    by_cases h : data.success = true ∧ data.orders ≠ []
    · rw [if_pos h, mem_insertIds]
      simp [h.1]
    · rw [if_neg h]
      simp only [List.not_mem_nil, false_iff]
      rintro ⟨hs, hx⟩
      apply h
      refine ⟨hs, ?_⟩
      intro hnil
      rw [hnil] at hx
      simp at hx
  · exact loadAvailableOrders_idem env data s

/-- C4 witness: a successful snapshot containing order 1 makes exactly order
1 visible, and re-applying the same snapshot changes nothing. -/
theorem replaceSnapshot_idempotent_determined_witness :
    ((1 : Nat) ∈ visibleCards (loadAvailableOrders ⟨true, true, true⟩
        ⟨true, [⟨1, none, none, none, none, none, none⟩]⟩
        ⟨[9], true, false, [], []⟩) ↔
      true = true ∧
        (1 : Nat) ∈ ([(⟨1, none, none, none, none, none, none⟩ : Order)].map
          Order.id)) ∧
    loadAvailableOrders ⟨true, true, true⟩
        ⟨true, [⟨1, none, none, none, none, none, none⟩]⟩
        (loadAvailableOrders ⟨true, true, true⟩
          ⟨true, [⟨1, none, none, none, none, none, none⟩]⟩
          ⟨[9], true, false, [], []⟩) =
      loadAvailableOrders ⟨true, true, true⟩
        ⟨true, [⟨1, none, none, none, none, none, none⟩]⟩
        ⟨[9], true, false, [], []⟩ :=
  ⟨(replaceSnapshot_idempotent_determined ⟨true, true, true⟩
      ⟨true, [⟨1, none, none, none, none, none, none⟩]⟩
      ⟨[9], true, false, [], []⟩ rfl rfl).1 1,
   (replaceSnapshot_idempotent_determined ⟨true, true, true⟩
      ⟨true, [⟨1, none, none, none, none, none, none⟩]⟩
      ⟨[9], true, false, [], []⟩ rfl rfl).2⟩

theorem displayInv_addOrderCard_shown (env : DomEnv) (o : Order) (t : PageState)
    (hc : env.containerExists = true) (ht : env.templateExists = true)
    (hnov : t.noOrdersVisible = false) (hcv : t.containerVisible = true) :
    displayInv (addOrderCard env o t) := by
  unfold displayInv visibleCards
  rw [addOrderCard_noOrdersVisible, addOrderCard_containerVisible, hnov, hcv]
  have hne := List.ne_nil_of_mem (addOrderCard_mem_cards env o t hc ht)
  simp [hne]

theorem displayInv_handleNewOrder (env : DomEnv) (payload : Option Order)
    (s : PageState) (hc : env.containerExists = true)
    (ht : env.templateExists = true) (hm : env.noOrdersMsgExists = true)
    (hinv : displayInv s) : displayInv (handleNewOrder env payload s) := by
  cases payload with
  | none => exact hinv
  | some o =>
    by_cases hid : o.id = 0
    · simp only [handleNewOrder, if_pos hid]
      exact hinv
    · simp only [handleNewOrder, if_neg hid]
      exact displayInv_addOrderCard_shown env o _ hc ht (by simp [hm]) (by simp [hc])

theorem displayInv_removeOrderCard (env : DomEnv) (orderId : Nat)
    (s : PageState) (hc : env.containerExists = true)
    (hm : env.noOrdersMsgExists = true) (hinv : displayInv s) :
    displayInv (removeOrderCard env orderId s) := by
  unfold removeOrderCard
  by_cases h1 : orderId ∈ s.cards
  · rw [if_pos h1]
    by_cases h2 : env.containerExists = true ∧ s.cards.erase orderId = []
    · rw [if_pos h2]
      unfold displayInv visibleCards
      simp [hm]
    · rw [if_neg h2]
      have herase : s.cards.erase orderId ≠ [] := fun he => h2 ⟨hc, he⟩
      have hcardsne : s.cards ≠ [] := List.ne_nil_of_mem h1
      unfold displayInv visibleCards at hinv ⊢
      by_cases hcv : s.containerVisible = true
      · simp only [hcv, if_true] at hinv ⊢
        constructor
        · intro hnov
          exact absurd (hinv.mp hnov) hcardsne
        · intro he
          exact absurd he herase
      · have hcvf : s.containerVisible = false := by simpa using hcv
        simp only [hcvf] at hinv ⊢
        simpa using hinv
  · rw [if_neg h1]
    exact hinv

theorem displayInv_loadAvailableOrders (env : DomEnv) (data : FetchData)
    (s : PageState) (hc : env.containerExists = true)
    (ht : env.templateExists = true) (hm : env.noOrdersMsgExists = true) :
    displayInv (loadAvailableOrders env data s) := by
  unfold displayInv
  rw [loadAvailableOrders_visibleCards env data s hc ht,
    loadAvailableOrders_noOrdersVisible env data s hm]
  by_cases h : data.success = true ∧ data.orders ≠ []
  · simp only [if_pos h]
    have hne := insertIds_ne_nil [] data.orders h.2
    simp [hne]
  · simp only [if_neg h]

/-- C10: each of the three view mutations of the rider available-orders
widget — a push add, a card removal, and a snapshot load — preserves the
invariant that the no-orders message is shown exactly when the visible
order set is empty, given that the container, template and message elements
exist. -/
theorem empty_message_invariant_preserved (env : DomEnv) (s : PageState)
    (hc : env.containerExists = true) (ht : env.templateExists = true)
    (hm : env.noOrdersMsgExists = true) (hinv : displayInv s)
    (payload : Option Order) (orderId : Nat) (data : FetchData) :
    displayInv (handleNewOrder env payload s) ∧
    displayInv (removeOrderCard env orderId s) ∧
    displayInv (loadAvailableOrders env data s) :=
  ⟨displayInv_handleNewOrder env payload s hc ht hm hinv,
   displayInv_removeOrderCard env orderId s hc hm hinv,
   displayInv_loadAvailableOrders env data s hc ht hm⟩

/-- C10 witness: starting from the empty view showing the no-orders message,
a push add of order 7, a removal of order 7, and a snapshot load containing
order 7 each preserve the display invariant. -/
theorem empty_message_invariant_preserved_witness :
    displayInv (handleNewOrder ⟨true, true, true⟩
        (some ⟨7, none, none, none, none, none, none⟩)
        ⟨[], false, true, [], []⟩) ∧
    displayInv (removeOrderCard ⟨true, true, true⟩ 7 ⟨[], false, true, [], []⟩) ∧
    displayInv (loadAvailableOrders ⟨true, true, true⟩
        ⟨true, [⟨7, none, none, none, none, none, none⟩]⟩
        ⟨[], false, true, [], []⟩) :=
  empty_message_invariant_preserved ⟨true, true, true⟩ ⟨[], false, true, [], []⟩
    rfl rfl rfl (by decide) (some ⟨7, none, none, none, none, none, none⟩) 7
    ⟨true, [⟨7, none, none, none, none, none, none⟩]⟩

end PawfectFinds
